import Mathlib

/-!
Verification of the musication-backend audio-similarity pipeline.

This file gives a shallow embedding, over exact rational arithmetic, of the
core comparison pipeline of the repository:

* `src/services/melody_analyzer.py` — chroma transposition (`np.roll`),
  dynamic time warping (`librosa.sequence.dtw` with the default 3-step set),
  local alignment-window scanning, and the 12-way transposition search;
* `src/services/similarity_comparator.py` — melody-contour comparison,
  segment filtering, tempo ratio, and the weighted overall score;
* `src/services/audio_analyzer.py` — amplitude normalization;
* `src/app.py` — the background comparison job's status state machine.

Numeric matrices are embedded as lists of rows (`List (List ℚ)`) or as index
functions `Nat → Nat → ℚ`; the frame-distance metric passed to
`scipy.spatial.distance.cdist` is kept as an explicit function parameter,
exactly as the Python source passes a `metric` argument.
-/

/-- Embedding of `np.roll(l, s, axis=0)` for a list of rows: element at index
`i` of the result is the element at index `(i - s) mod n` of the input.  This
equals a left rotation by `n - s % n`, which is how it is written here
(`List.rotate` rotates to the left). -/
def npRoll {α : Type} (l : List α) (s : Nat) : List α :=
  l.rotate (l.length - s % l.length)

/-- Embedding of `MelodyAnalyzer.transpose_chroma` (melody_analyzer.py:288-301):
a circular shift of the pitch-class (row) axis via `np.roll(chroma, semitones, axis=0)`. -/
def transpose_chroma (chroma : List (List ℚ)) (semitones : Nat) : List (List ℚ) :=
  npRoll chroma semitones

/-- Embedding of the tempo-ratio expression of
`SimilarityComparator.compare_tracks` (similarity_comparator.py:282):
`features1.tempo / features2.tempo if features2.tempo > 0 else 1.0`. -/
def tempo_ratio (tempo1 tempo2 : ℚ) : ℚ :=
  if tempo2 > 0 then tempo1 / tempo2 else 1

/-- Embedding of `AudioAnalyzer.normalize_audio` (audio_analyzer.py:58-70).
The peak `np.max(np.abs(y))` is embedded as a fold of `max` with base `0`,
which agrees with `np.max` on every nonempty sample list because absolute
values are nonnegative. -/
def normalize_audio (y : List ℚ) : List ℚ :=
  let peak := (y.map (fun x => |x|)).foldr max 0
  if peak = 0 then y else y.map (fun x => x / peak)

/-- Modelled from the spec: the pitch tracker used on a silent signal is
`librosa.pyin`, an external library function whose code is not part of this
repository.  Per the spec's silence case, on an all-zero signal it detects no
periodicity: every frame is unvoiced and its f0 is undefined (NaN), which
`extract_melody_contour` (melody_analyzer.py:117-128) replaces by `0.0` via
`np.nan_to_num`.  The modelled result is the post-`nan_to_num` output. -/
def extract_melody_contour_silent (n : Nat) : List ℚ × List Bool :=
  (List.replicate n 0, List.replicate n false)

/-- Result record of `SimilarityComparator.compute_overall_similarity`
(similarity_comparator.py:171-235): the returned dictionary with its component
scores and weights flattened into fields. -/
structure OverallResult where
  overall_similarity_score : ℚ
  similarity_percentage : ℚ
  similarity_level : String
  verdict : String
  chroma_harmony : ℚ
  melody_contour : ℚ
  tempo : ℚ
  weight_chroma : ℚ
  weight_melody : ℚ
  weight_tempo : ℚ

/-- Weight constant `CHROMA_WEIGHT = 0.5` (similarity_comparator.py:186). -/
def CHROMA_WEIGHT : ℚ := 0.5

/-- Weight constant `MELODY_WEIGHT = 0.4` (similarity_comparator.py:187). -/
def MELODY_WEIGHT : ℚ := 0.4

/-- Weight constant `TEMPO_WEIGHT = 0.1` (similarity_comparator.py:188). -/
def TEMPO_WEIGHT : ℚ := 0.1

/-- Embedding of `SimilarityComparator.compute_overall_similarity`
(similarity_comparator.py:171-235).  The parameter `tempo_ratio` shadows the
top-level definition of the same name, mirroring the Python parameter name. -/
def compute_overall_similarity (chroma_similarity melody_similarity tempo_ratio : ℚ) :
    OverallResult :=
  let tempo_similarity := 1 / (1 + |tempo_ratio - 1|)
  let overall_score :=
    CHROMA_WEIGHT * chroma_similarity +
    MELODY_WEIGHT * melody_similarity +
    TEMPO_WEIGHT * tempo_similarity
  let similarity_percentage := overall_score * 100
  let levelVerdict : String × String :=
    if similarity_percentage ≥ 80 then
      ("Very High", "Highly similar - possible plagiarism or cover")
    else if similarity_percentage ≥ 60 then
      ("High", "Significant similarity detected")
    else if similarity_percentage ≥ 40 then
      ("Moderate", "Some similarities found")
    else if similarity_percentage ≥ 20 then
      ("Low", "Minor similarities only")
    else
      ("Very Low", "No significant similarity")
  { overall_similarity_score := overall_score
    similarity_percentage := similarity_percentage
    similarity_level := levelVerdict.1
    verdict := levelVerdict.2
    chroma_harmony := chroma_similarity
    melody_contour := melody_similarity
    tempo := tempo_similarity
    weight_chroma := CHROMA_WEIGHT
    weight_melody := MELODY_WEIGHT
    weight_tempo := TEMPO_WEIGHT }

/-- Categorical level as worded by the claim: inclusive lower bounds on the
percentage, ≥80 Very High, ≥60 High, ≥40 Moderate, ≥20 Low, else Very Low. -/
def level_spec (p : ℚ) : String :=
  if p ≥ 80 then "Very High"
  else if p ≥ 60 then "High"
  else if p ≥ 40 then "Moderate"
  else if p ≥ 20 then "Low"
  else "Very Low"

/-- Fixed verdict sentence paired with each categorical level, as worded by
the claim. -/
def verdict_spec (p : ℚ) : String :=
  if p ≥ 80 then "Highly similar - possible plagiarism or cover"
  else if p ≥ 60 then "Significant similarity detected"
  else if p ≥ 40 then "Some similarities found"
  else if p ≥ 20 then "Minor similarities only"
  else "No significant similarity"

/-! ### Helper lemmas -/

theorem rotate_of_mod_eq_zero {α : Type} (l : List α) (n : Nat)
    (h : n % l.length = 0) : l.rotate n = l := by
  rw [← List.rotate_mod, h, List.rotate_zero]

/-! ### Claims -/

/-- C2: for every 12-row chroma matrix and every semitone shift `s < 12`,
rolling the pitch-class axis by `s` and then by `(12 - s) % 12` reproduces the
original matrix exactly. -/
theorem transpose_chroma_roundtrip (c : List (List ℚ)) (hc : c.length = 12)
    (s : Nat) (hs : s < 12) :
    transpose_chroma (transpose_chroma c s) ((12 - s) % 12) = c := by
  unfold transpose_chroma npRoll
  rw [List.length_rotate, hc, List.rotate_rotate]
  apply rotate_of_mod_eq_zero
  rw [hc]
  omega

/-- Witness for C2 at a concrete 12-row chroma matrix and shift 5. -/
theorem transpose_chroma_roundtrip_witness :
    transpose_chroma
      (transpose_chroma [[0],[1],[2],[3],[4],[5],[6],[7],[8],[9],[10],[11]] 5)
      ((12 - 5) % 12) = [[0],[1],[2],[3],[4],[5],[6],[7],[8],[9],[10],[11]] :=
  transpose_chroma_roundtrip
    [[0],[1],[2],[3],[4],[5],[6],[7],[8],[9],[10],[11]] (by decide) 5 (by decide)

/-- C4: for every input, `compute_overall_similarity` computes the tempo
sub-score `1/(1+|tempo_ratio-1|)`, the overall score as the weighted sum with
weights chroma 0.5, melody 0.4, tempo 0.1 (summing to 1), the percentage as
score times 100, and the categorical level and verdict by the claimed
inclusive lower bounds on the percentage. -/
theorem compute_overall_similarity_spec (c m t : ℚ) :
    (compute_overall_similarity c m t).tempo = 1 / (1 + |t - 1|) ∧
    (compute_overall_similarity c m t).overall_similarity_score =
      0.5 * c + 0.4 * m + 0.1 * (compute_overall_similarity c m t).tempo ∧
    (compute_overall_similarity c m t).similarity_percentage =
      (compute_overall_similarity c m t).overall_similarity_score * 100 ∧
    (compute_overall_similarity c m t).weight_chroma = 0.5 ∧
    (compute_overall_similarity c m t).weight_melody = 0.4 ∧
    (compute_overall_similarity c m t).weight_tempo = 0.1 ∧
    (compute_overall_similarity c m t).weight_chroma +
      (compute_overall_similarity c m t).weight_melody +
      (compute_overall_similarity c m t).weight_tempo = 1 ∧
    (compute_overall_similarity c m t).similarity_level =
      level_spec ((compute_overall_similarity c m t).similarity_percentage) ∧
    (compute_overall_similarity c m t).verdict =
      verdict_spec ((compute_overall_similarity c m t).similarity_percentage) := by
  refine ⟨rfl, rfl, rfl, rfl, rfl, rfl, by norm_num [compute_overall_similarity,
    CHROMA_WEIGHT, MELODY_WEIGHT, TEMPO_WEIGHT], ?_, ?_⟩ <;>
    · simp only [compute_overall_similarity, level_spec, verdict_spec]
      split_ifs <;> rfl

/-- C8: the tempo ratio is track 1's tempo divided by track 2's tempo when the
latter is positive, and defaults to 1 when track 2's tempo is 0 (no division
is performed in that case). -/
theorem tempo_ratio_spec :
    (∀ t1 t2 : ℚ, 0 < t2 → tempo_ratio t1 t2 = t1 / t2) ∧
    (∀ t1 : ℚ, tempo_ratio t1 0 = 1) := by
  constructor
  · intro t1 t2 h
    simp [tempo_ratio, h]
  · intro t1
    simp [tempo_ratio]

/-- Witness for C8 at concrete tempi. -/
theorem tempo_ratio_spec_witness :
    tempo_ratio 3 2 = 3 / 2 ∧ tempo_ratio 5 0 = 1 :=
  ⟨tempo_ratio_spec.1 3 2 (by norm_num), tempo_ratio_spec.2 5⟩

/-- C9: on an all-zero (zero-energy) sample sequence, `normalize_audio`
returns its input unchanged (the division branch is not taken), and the
modelled silent-signal melody extraction yields all-unvoiced flags with all-zero f0. -/
theorem normalize_audio_silence (y : List ℚ) (hz : ∀ x ∈ y, x = 0) :
    normalize_audio y = y ∧
    (∀ b ∈ (extract_melody_contour_silent y.length).2, b = false) ∧
    (∀ v ∈ (extract_melody_contour_silent y.length).1, v = 0) := by
  refine ⟨?_, ?_, ?_⟩
  · have hfold : (y.map (fun x => |x|)).foldr max 0 = 0 := by
      induction y with
      | nil => simp
      | cons a l ih =>
        have ha : a = 0 := hz a (List.mem_cons_self a l)
        have hl : ∀ x ∈ l, x = 0 := fun x hx => hz x (List.mem_cons_of_mem a hx)
        simp [ha, ih hl]
    simp [normalize_audio, hfold]
  · intro b hb
    exact List.eq_of_mem_replicate hb
  · intro v hv
    exact List.eq_of_mem_replicate hv

/-- Witness for C9 at a concrete silent signal. -/
theorem normalize_audio_silence_witness :
    normalize_audio [0, 0, 0] = [0, 0, 0] ∧
    (∀ b ∈ (extract_melody_contour_silent ([0, 0, 0] : List ℚ).length).2, b = false) ∧
    (∀ v ∈ (extract_melody_contour_silent ([0, 0, 0] : List ℚ).length).1, v = 0) :=
  normalize_audio_silence [0, 0, 0] (by decide)

/-! ### Dynamic time warping (librosa.sequence.dtw, default parameters) -/

/-- Number of time frames of a feature matrix stored as a list of rows: the
length of the first row (all rows of a well-formed numpy matrix share it). -/
def nFrames (f : List (List ℚ)) : Nat := (f.headD []).length

/-- Frame (column) `i` of a feature matrix: the `i`-th entry of every row.
This is a row of `features.T` in `compute_dtw_alignment`. -/
def frameAt (f : List (List ℚ)) (i : Nat) : List ℚ :=
  f.map (fun row => row.getD i 0)

/-- Frame-to-frame distance matrix `C = cdist(features1.T, features2.T, metric)`
(melody_analyzer.py:236).  The distance metric is an explicit function
parameter, exactly as the source passes a `metric` argument to scipy. -/
def costMatrix (metric : List ℚ → List ℚ → ℚ) (f1 f2 : List (List ℚ)) :
    Nat → Nat → ℚ := fun i j => metric (frameAt f1 i) (frameAt f2 j)

/-- Row 0 of the accumulated-cost matrix of `librosa.sequence.dtw` with the
default step set: outside the matrix the padding is infinite, so the first row
accumulates along itself. -/
def dtwRow0 (C : Nat → Nat → ℚ) : Nat → ℚ
  | 0 => C 0 0
  | j + 1 => C 0 (j + 1) + dtwRow0 C j

/-- Row `i+1` of the accumulated-cost matrix, given row `i` as `prev`:
column 0 accumulates downward, and interior cells take the minimum over the
three predecessors `(i,j)`, `(i+1,j)`, `(i,j+1)`. -/
def dtwRowSucc (C : Nat → Nat → ℚ) (i : Nat) (prev : Nat → ℚ) : Nat → ℚ
  | 0 => C (i + 1) 0 + prev 0
  | j + 1 => C (i + 1) (j + 1) +
      min (prev j) (min (dtwRowSucc C i prev j) (prev (j + 1)))

/-- Accumulated-cost matrix `D` of `librosa.sequence.dtw` (default steps
{(1,1),(0,1),(1,0)}, unit multiplicative and zero additive weights), built row
by row so that it is structurally recursive. -/
def dtwD (C : Nat → Nat → ℚ) : Nat → Nat → ℚ
  | 0 => dtwRow0 C
  | i + 1 => dtwRowSucc C i (dtwD C i)

theorem dtwD_zero_zero (C : Nat → Nat → ℚ) : dtwD C 0 0 = C 0 0 := rfl

theorem dtwD_zero_succ (C : Nat → Nat → ℚ) (j : Nat) :
    dtwD C 0 (j + 1) = C 0 (j + 1) + dtwD C 0 j := rfl

theorem dtwD_succ_zero (C : Nat → Nat → ℚ) (i : Nat) :
    dtwD C (i + 1) 0 = C (i + 1) 0 + dtwD C i 0 := rfl

theorem dtwD_succ_succ (C : Nat → Nat → ℚ) (i j : Nat) :
    dtwD C (i + 1) (j + 1) = C (i + 1) (j + 1) +
      min (dtwD C i j) (min (dtwD C (i + 1) j) (dtwD C i (j + 1))) := rfl

/-- Backtracking of `librosa.sequence.dtw` starting from row 0: from `(0, j)`
only the `(0,1)` step is available (the other candidates lie in the infinite
padding), so the path walks left to `(0, 0)`. -/
def dtwBt0 : Nat → List (Nat × Nat)
  | 0 => [(0, 0)]
  | j + 1 => (0, j + 1) :: dtwBt0 j

/-- Backtracking from row `i+1`, given backtracking from row `i` as `prevRow`.
From `(i+1, 0)` only the `(1,0)` step is available.  From an interior cell the
predecessor minimizing accumulated cost is chosen, candidates ordered as
librosa's `step_sizes_sigma` rows `[(1,1), (0,1), (1,0)]`; `np.argmin` keeps
the first minimum, so the diagonal is preferred, then the `(0,1)` step. -/
def dtwBtSucc (C : Nat → Nat → ℚ) (i : Nat)
    (prevRow : Nat → List (Nat × Nat)) : Nat → List (Nat × Nat)
  | 0 => (i + 1, 0) :: prevRow 0
  | j + 1 =>
      let d := dtwD C i j
      let l := dtwD C (i + 1) j
      let u := dtwD C i (j + 1)
      (i + 1, j + 1) ::
        (if d ≤ l ∧ d ≤ u then prevRow j
         else if l ≤ u then dtwBtSucc C i prevRow j
         else prevRow (j + 1))

/-- Warping path of `librosa.sequence.dtw(C, backtrack=True)` from cell
`(i, j)`, in the order librosa returns it: the first pair is `(i, j)` and the
last pair is `(0, 0)` (librosa's own backtracking asserts `wp[-1] == (0, 0)`). -/
def dtwBacktrack (C : Nat → Nat → ℚ) : Nat → Nat → List (Nat × Nat)
  | 0 => fun j => dtwBt0 j
  | i + 1 => dtwBtSucc C i (dtwBacktrack C i)

theorem dtwBacktrack_zero_zero (C : Nat → Nat → ℚ) :
    dtwBacktrack C 0 0 = [(0, 0)] := rfl

theorem dtwBacktrack_zero_succ (C : Nat → Nat → ℚ) (j : Nat) :
    dtwBacktrack C 0 (j + 1) = (0, j + 1) :: dtwBacktrack C 0 j := rfl

theorem dtwBacktrack_succ_zero (C : Nat → Nat → ℚ) (i : Nat) :
    dtwBacktrack C (i + 1) 0 = (i + 1, 0) :: dtwBacktrack C i 0 := rfl

theorem dtwBacktrack_succ_succ (C : Nat → Nat → ℚ) (i j : Nat) :
    dtwBacktrack C (i + 1) (j + 1) = (i + 1, j + 1) ::
      (if dtwD C i j ≤ dtwD C (i + 1) j ∧ dtwD C i j ≤ dtwD C i (j + 1) then
        dtwBacktrack C i j
      else if dtwD C (i + 1) j ≤ dtwD C i (j + 1) then dtwBacktrack C (i + 1) j
      else dtwBacktrack C i (j + 1)) := rfl

/-- Embedding of `MelodyAnalyzer.compute_dtw_alignment`
(melody_analyzer.py:217-244): builds the frame-to-frame cost matrix, runs DTW
on it, and returns the accumulated cost of the bottom-right cell normalized by
the warping-path length, together with the warping path exactly as
`librosa.sequence.dtw` returns it. -/
def compute_dtw_alignment (metric : List ℚ → List ℚ → ℚ)
    (f1 f2 : List (List ℚ)) : ℚ × List (Nat × Nat) :=
  let C := costMatrix metric f1 f2
  let wp := dtwBacktrack C (nFrames f1 - 1) (nFrames f2 - 1)
  (dtwD C (nFrames f1 - 1) (nFrames f2 - 1) / wp.length, wp)

/-- Step relation along the warping path as returned (end to start): the
earlier pair exceeds the later one by `(1,1)`, `(0,1)` or `(1,0)`. -/
def dtwStepRel (a b : Nat × Nat) : Prop :=
  (a.1 = b.1 + 1 ∧ a.2 = b.2 + 1) ∨ (a.1 = b.1 ∧ a.2 = b.2 + 1) ∨
    (a.1 = b.1 + 1 ∧ a.2 = b.2)

theorem dtwBacktrack_ne_nil (C : Nat → Nat → ℚ) (i j : Nat) :
    dtwBacktrack C i j ≠ [] := by
  rcases i with _ | i <;> rcases j with _ | j
  · simp [dtwBacktrack_zero_zero]
  · simp [dtwBacktrack_zero_succ]
  · simp [dtwBacktrack_succ_zero]
  · simp [dtwBacktrack_succ_succ]

theorem dtwBacktrack_head (C : Nat → Nat → ℚ) (i j : Nat) :
    (dtwBacktrack C i j).head? = some (i, j) := by
  rcases i with _ | i <;> rcases j with _ | j
  · simp [dtwBacktrack_zero_zero]
  · simp [dtwBacktrack_zero_succ]
  · simp [dtwBacktrack_succ_zero]
  · simp [dtwBacktrack_succ_succ]

theorem getLast?_cons_of_ne_nil {α : Type} (a : α) (l : List α) (h : l ≠ []) :
    (a :: l).getLast? = l.getLast? := by
  cases l with
  | nil => exact absurd rfl h
  | cons b t => simp [List.getLast?_cons_cons]

theorem dtwBacktrack_getLast (C : Nat → Nat → ℚ) :
    ∀ n i j : Nat, i + j ≤ n → (dtwBacktrack C i j).getLast? = some (0, 0) := by
  intro n
  induction n with
  | zero =>
    intro i j h
    have hi : i = 0 := by omega
    have hj : j = 0 := by omega
    subst hi; subst hj
    simp [dtwBacktrack_zero_zero]
  | succ n ih =>
    intro i j h
    rcases i with _ | i <;> rcases j with _ | j
    · simp [dtwBacktrack_zero_zero]
    · rw [dtwBacktrack_zero_succ,
        getLast?_cons_of_ne_nil _ _ (dtwBacktrack_ne_nil C 0 j)]
      exact ih 0 j (by omega)
    · rw [dtwBacktrack_succ_zero,
        getLast?_cons_of_ne_nil _ _ (dtwBacktrack_ne_nil C i 0)]
      exact ih i 0 (by omega)
    · rw [dtwBacktrack_succ_succ]
      split_ifs with hd hl
      · rw [getLast?_cons_of_ne_nil _ _ (dtwBacktrack_ne_nil C i j)]
        exact ih i j (by omega)
      · rw [getLast?_cons_of_ne_nil _ _ (dtwBacktrack_ne_nil C (i + 1) j)]
        exact ih (i + 1) j (by omega)
      · rw [getLast?_cons_of_ne_nil _ _ (dtwBacktrack_ne_nil C i (j + 1))]
        exact ih i (j + 1) (by omega)

theorem dtwBacktrack_chain (C : Nat → Nat → ℚ) :
    ∀ n i j : Nat, i + j ≤ n → List.Chain' dtwStepRel (dtwBacktrack C i j) := by
  intro n
  induction n with
  | zero =>
    intro i j h
    have hi : i = 0 := by omega
    have hj : j = 0 := by omega
    subst hi; subst hj
    simp [dtwBacktrack_zero_zero]
  | succ n ih =>
    intro i j h
    rcases i with _ | i <;> rcases j with _ | j
    · simp [dtwBacktrack_zero_zero]
    · rw [dtwBacktrack_zero_succ, List.chain'_cons']
      refine ⟨?_, ih 0 j (by omega)⟩
      intro y hy
      rw [dtwBacktrack_head] at hy
      rw [← Option.mem_some_iff.mp hy]
      exact Or.inr (Or.inl ⟨rfl, rfl⟩)
    · rw [dtwBacktrack_succ_zero, List.chain'_cons']
      refine ⟨?_, ih i 0 (by omega)⟩
      intro y hy
      rw [dtwBacktrack_head] at hy
      rw [← Option.mem_some_iff.mp hy]
      exact Or.inr (Or.inr ⟨rfl, rfl⟩)
    · rw [dtwBacktrack_succ_succ]
      split_ifs with hd hl
      · rw [List.chain'_cons']
        refine ⟨?_, ih i j (by omega)⟩
        intro y hy
        rw [dtwBacktrack_head] at hy
        rw [← Option.mem_some_iff.mp hy]
        exact Or.inl ⟨rfl, rfl⟩
      · rw [List.chain'_cons']
        refine ⟨?_, ih (i + 1) j (by omega)⟩
        intro y hy
        rw [dtwBacktrack_head] at hy
        rw [← Option.mem_some_iff.mp hy]
        exact Or.inr (Or.inl ⟨rfl, rfl⟩)
      · rw [List.chain'_cons']
        refine ⟨?_, ih i (j + 1) (by omega)⟩
        intro y hy
        rw [dtwBacktrack_head] at hy
        rw [← Option.mem_some_iff.mp hy]
        exact Or.inr (Or.inr ⟨rfl, rfl⟩)

/-- C3 counterexample: at the concrete one-row feature sequences `[[0, 1]]`
aligned against themselves (a valid 2 x 2 cost matrix), the path returned by
`compute_dtw_alignment` is `[(1, 1), (0, 0)]`: its first point is `(1, 1)`,
not `(0, 0)` as the claim states, because `librosa.sequence.dtw` returns the
backtracked path from the bottom-right cell down to `(0, 0)`. -/
theorem compute_dtw_alignment_path_counterexample :
    (compute_dtw_alignment (fun x y => |x.getD 0 0 - y.getD 0 0|)
        [[0, 1]] [[0, 1]]).2 = [(1, 1), (0, 0)] ∧
    ((compute_dtw_alignment (fun x y => |x.getD 0 0 - y.getD 0 0|)
        [[0, 1]] [[0, 1]]).2).head? ≠ some (0, 0) := by
  have h : (compute_dtw_alignment (fun x y => |x.getD 0 0 - y.getD 0 0|)
      [[0, 1]] [[0, 1]]).2 = [(1, 1), (0, 0)] := by
    show dtwBacktrack (costMatrix (fun x y => |x.getD 0 0 - y.getD 0 0|)
      [[0, 1]] [[0, 1]]) (0 + 1) (0 + 1) = [(1, 1), (0, 0)]
    rw [dtwBacktrack_succ_succ]
    rw [if_pos ?cond, dtwBacktrack_zero_zero]
    case cond =>
      rw [dtwD_succ_zero, dtwD_zero_succ, dtwD_zero_zero]
      norm_num [costMatrix, frameAt, List.getD]
  refine ⟨h, ?_⟩
  rw [h]
  decide

/-- C3 (amended): for every metric and nonempty feature sequences, the warping
path returned by `compute_dtw_alignment` runs from the bottom-right cell down
to the origin: its first point is `(T1-1, T2-1)`, its last point is `(0, 0)`,
consecutive points decrease by a step in {(1,1), (0,1), (1,0)}, and therefore
the reversed path satisfies the originally claimed invariant (first point
`(0, 0)`, last point `(T1-1, T2-1)`, non-decreasing with steps in
{(+1,0), (0,+1), (+1,+1)}). -/
theorem compute_dtw_alignment_path_spec (metric : List ℚ → List ℚ → ℚ)
    (f1 f2 : List (List ℚ)) (h1 : 1 ≤ nFrames f1) (h2 : 1 ≤ nFrames f2) :
    ((compute_dtw_alignment metric f1 f2).2).head? =
      some (nFrames f1 - 1, nFrames f2 - 1) ∧
    ((compute_dtw_alignment metric f1 f2).2).getLast? = some (0, 0) ∧
    List.Chain' dtwStepRel ((compute_dtw_alignment metric f1 f2).2) ∧
    List.Chain' (fun a b => dtwStepRel b a)
      ((compute_dtw_alignment metric f1 f2).2).reverse := by
  refine ⟨dtwBacktrack_head _ _ _, dtwBacktrack_getLast _ _ _ _ le_rfl,
    dtwBacktrack_chain _ _ _ _ le_rfl, ?_⟩
  rw [List.chain'_reverse]
  exact dtwBacktrack_chain _ _ _ _ le_rfl

/-- Witness for the amended C3 at a concrete pair of feature sequences. -/
theorem compute_dtw_alignment_path_spec_witness :
    ((compute_dtw_alignment (fun x y => |x.getD 0 0 - y.getD 0 0|)
        [[0, 1, 2]] [[0, 2]]).2).head? =
      some (nFrames [[(0 : ℚ), 1, 2]] - 1, nFrames [[(0 : ℚ), 2]] - 1) ∧
    ((compute_dtw_alignment (fun x y => |x.getD 0 0 - y.getD 0 0|)
        [[0, 1, 2]] [[0, 2]]).2).getLast? = some (0, 0) ∧
    List.Chain' dtwStepRel ((compute_dtw_alignment
        (fun x y => |x.getD 0 0 - y.getD 0 0|) [[0, 1, 2]] [[0, 2]]).2) ∧
    List.Chain' (fun a b => dtwStepRel b a) ((compute_dtw_alignment
        (fun x y => |x.getD 0 0 - y.getD 0 0|) [[0, 1, 2]] [[0, 2]]).2).reverse :=
  compute_dtw_alignment_path_spec _ [[0, 1, 2]] [[0, 2]] (by decide) (by decide)

/-! ### Transposition search (find_best_transposition) -/

/-- Similarity assigned by the loop of `find_best_transposition`
(melody_analyzer.py:319-326) to a candidate shift: the DTW distance of
`chroma1` against `transpose_chroma(chroma2, shift)` under the given metric,
converted to `1 / (1 + distance)`. -/
def shift_similarity (metric : List ℚ → List ℚ → ℚ)
    (chroma1 chroma2 : List (List ℚ)) (shift : Nat) : ℚ :=
  1 / (1 + (compute_dtw_alignment metric chroma1 (transpose_chroma chroma2 shift)).1)

/-- One iteration of the loop of `find_best_transposition`
(melody_analyzer.py:319-330): replace the running best only on a strictly
greater similarity.  The running best similarity lives in `WithBot ℚ`, whose
bottom models the initialization `best_similarity = -np.inf`. -/
def bestStep (f : Nat → ℚ) (best : Nat × WithBot ℚ) (shift : Nat) :
    Nat × WithBot ℚ :=
  if (f shift : WithBot ℚ) > best.2 then (shift, (f shift : WithBot ℚ)) else best

/-- Embedding of `MelodyAnalyzer.find_best_transposition`
(melody_analyzer.py:303-332): starting from `best_semitones = 0` and
`best_similarity = -np.inf` (modelled as ⊥), fold the loop body over the
shifts 0..11 in ascending order.  The first iteration always replaces ⊥, so
the final best similarity is a rational; it is extracted with `unbot'`
(default 0, never used — see `foldl_bestStep_spec`). -/
def find_best_transposition (metric : List ℚ → List ℚ → ℚ)
    (chroma1 chroma2 : List (List ℚ)) : Nat × ℚ :=
  let r := (List.range 12).foldl
    (bestStep (shift_similarity metric chroma1 chroma2)) (0, (⊥ : WithBot ℚ))
  (r.1, r.2.unbot' 0)

/-- Folding `bestStep` over the ascending shifts `0..k-1` computes the first
argmax: the result holds the least index attaining the maximum value, because
a later equal value does not replace the current best. -/
theorem foldl_bestStep_spec (f : Nat → ℚ) :
    ∀ k : Nat, 1 ≤ k →
      ∃ b : Nat, (List.range k).foldl (bestStep f) (0, (⊥ : WithBot ℚ)) =
          (b, (f b : WithBot ℚ)) ∧
        b < k ∧ (∀ t < k, f t ≤ f b) ∧ (∀ t < b, f t < f b) := by
  intro k
  induction k with
  | zero => omega
  | succ k ih =>
    intro _
    rcases Nat.eq_zero_or_pos k with hk | hk
    · subst hk
      refine ⟨0, ?_, by omega, ?_, by omega⟩
      · simp [List.range_succ, bestStep, WithBot.bot_lt_coe]
      · intro t ht
        interval_cases t
        exact le_refl _
    · obtain ⟨b, hfold, hblt, hmax, hstrict⟩ := ih hk
      rw [List.range_succ, List.foldl_append, hfold]
      simp only [List.foldl_cons, List.foldl_nil]
      by_cases hc : f b < f k
      · refine ⟨k, ?_, by omega, ?_, ?_⟩
        · simp [bestStep, hc]
        · intro t ht
          rcases Nat.lt_succ_iff_lt_or_eq.mp ht with h | h
          · exact le_trans (hmax t h) (le_of_lt hc)
          · subst h; exact le_refl _
        · intro t ht
          exact lt_of_le_of_lt (hmax t (by omega)) hc
      · refine ⟨b, ?_, by omega, ?_, hstrict⟩
        · simp [bestStep, hc]
        · intro t ht
          rcases Nat.lt_succ_iff_lt_or_eq.mp ht with h | h
          · exact hmax t h
          · subst h; exact not_lt.mp hc

/-- C1: `find_best_transposition` evaluates the 12 circular shifts in
ascending order, scores each one by `similarity = 1/(1 + DTW distance)`, and
returns the least shift index attaining the maximal similarity: every shift
scores no higher, and every smaller shift scores strictly lower (a later
equal value does not replace the current best). -/
theorem find_best_transposition_spec (metric : List ℚ → List ℚ → ℚ)
    (chroma1 chroma2 : List (List ℚ)) :
    ∃ b : Nat, find_best_transposition metric chroma1 chroma2 =
        (b, shift_similarity metric chroma1 chroma2 b) ∧
      b < 12 ∧
      (∀ t < 12, shift_similarity metric chroma1 chroma2 t ≤
        shift_similarity metric chroma1 chroma2 b) ∧
      (∀ t < b, shift_similarity metric chroma1 chroma2 t <
        shift_similarity metric chroma1 chroma2 b) := by
  obtain ⟨b, hfold, hb, hmax, hstrict⟩ :=
    foldl_bestStep_spec (shift_similarity metric chroma1 chroma2) 12 (by norm_num)
  exact ⟨b, by simp [find_best_transposition, hfold], hb, hmax, hstrict⟩

/-! ### DTW facts used by the identity case -/

theorem dtwD_nonneg (C : Nat → Nat → ℚ) (hC : ∀ i j, 0 ≤ C i j) :
    ∀ n i j : Nat, i + j ≤ n → 0 ≤ dtwD C i j := by
  intro n
  induction n with
  | zero =>
    intro i j h
    have hi : i = 0 := by omega
    have hj : j = 0 := by omega
    subst hi; subst hj
    rw [dtwD_zero_zero]
    exact hC 0 0
  | succ n ih =>
    intro i j h
    rcases i with _ | i <;> rcases j with _ | j
    · rw [dtwD_zero_zero]; exact hC 0 0
    · rw [dtwD_zero_succ]; exact add_nonneg (hC _ _) (ih 0 j (by omega))
    · rw [dtwD_succ_zero]; exact add_nonneg (hC _ _) (ih i 0 (by omega))
    · rw [dtwD_succ_succ]
      exact add_nonneg (hC _ _) (le_min (ih i j (by omega))
        (le_min (ih (i + 1) j (by omega)) (ih i (j + 1) (by omega))))

theorem dtwD_nonneg' (C : Nat → Nat → ℚ) (hC : ∀ i j, 0 ≤ C i j) (i j : Nat) :
    0 ≤ dtwD C i j :=
  dtwD_nonneg C hC (i + j) i j le_rfl

theorem dtwD_diag_zero (C : Nat → Nat → ℚ) (hC : ∀ i j, 0 ≤ C i j)
    (hdiag : ∀ i, C i i = 0) : ∀ k, dtwD C k k = 0 := by
  intro k
  induction k with
  | zero => rw [dtwD_zero_zero]; exact hdiag 0
  | succ k ih =>
    rw [dtwD_succ_succ, hdiag, ih]
    rw [min_eq_left (le_min (dtwD_nonneg' C hC _ _) (dtwD_nonneg' C hC _ _))]
    norm_num

theorem dtw_distance_nonneg (metric : List ℚ → List ℚ → ℚ)
    (hpos : ∀ x y, 0 ≤ metric x y) (f1 f2 : List (List ℚ)) :
    0 ≤ (compute_dtw_alignment metric f1 f2).1 := by
  show 0 ≤ dtwD (costMatrix metric f1 f2) (nFrames f1 - 1) (nFrames f2 - 1) /
      ((dtwBacktrack (costMatrix metric f1 f2)
        (nFrames f1 - 1) (nFrames f2 - 1)).length : ℚ)
  exact div_nonneg (dtwD_nonneg' _ (fun i j => hpos _ _) _ _) (Nat.cast_nonneg _)

theorem compute_dtw_alignment_self (metric : List ℚ → List ℚ → ℚ)
    (f : List (List ℚ)) (hrefl : ∀ x, metric x x = 0)
    (hpos : ∀ x y, 0 ≤ metric x y) :
    (compute_dtw_alignment metric f f).1 = 0 := by
  show dtwD (costMatrix metric f f) (nFrames f - 1) (nFrames f - 1) /
      ((dtwBacktrack (costMatrix metric f f)
        (nFrames f - 1) (nFrames f - 1)).length : ℚ) = 0
  rw [dtwD_diag_zero (costMatrix metric f f) (fun i j => hpos _ _)
    (fun i => hrefl _) _, zero_div]

theorem transpose_chroma_zero (c : List (List ℚ)) : transpose_chroma c 0 = c := by
  simp [transpose_chroma, npRoll, List.rotate_length]

theorem shift_similarity_le_one (metric : List ℚ → List ℚ → ℚ)
    (hpos : ∀ x y, 0 ≤ metric x y) (c1 c2 : List (List ℚ)) (t : Nat) :
    shift_similarity metric c1 c2 t ≤ 1 := by
  unfold shift_similarity
  have hd := dtw_distance_nonneg metric hpos c1 (transpose_chroma c2 t)
  rw [div_le_one (by linarith)]
  linarith

/-! ### Melody comparison and the per-pair comparison driver -/

/-- Embedding of `MelodyAnalyzer.convert_f0_to_midi` (melody_analyzer.py:150-165):
clamp f0 to at least 1e-10 to avoid log of zero, convert via
`librosa.hz_to_midi`, and force frames below 50 Hz to 0.  The transcendental
conversion `hz_to_midi` (69 + 12·log2(f/440), an external library function) is
kept as a function parameter. -/
def convert_f0_to_midi (hzToMidi : ℚ → ℚ) (f0 : List ℚ) : List ℚ :=
  f0.map (fun x =>
    let xc := max x (1 / 10 ^ 10)
    if xc < 50 then 0 else hzToMidi xc)

/-- Embedding of `np.median`: sort ascending; middle element for odd length,
mean of the two middle elements for even length. -/
def npMedian (l : List ℚ) : ℚ :=
  let s := l.mergeSort (fun a b => decide (a ≤ b))
  if l.length % 2 = 1 then s.getD (l.length / 2) 0
  else (s.getD (l.length / 2 - 1) 0 + s.getD (l.length / 2) 0) / 2

/-- Embedding of the inner `normalize_melody` of
`SimilarityComparator.compare_melody_contours` (similarity_comparator.py:90-98):
subtract the median of the voiced frames from every frame, zeroing the
unvoiced frames; if no frame is voiced, return the input unchanged. -/
def normalize_melody (midi : List ℚ) (voiced : List Bool) : List ℚ :=
  let voiced_midi := (midi.zip voiced).filterMap
    (fun p => if p.2 then some p.1 else none)
  if voiced_midi.length > 0 then
    let median_pitch := npMedian voiced_midi
    (midi.zip voiced).map (fun p => if p.2 then p.1 - median_pitch else 0)
  else midi

/-- Euclidean distance between two 1-dimensional frames, the metric used by
`compare_melody_contours` on the `reshape(1, -1)` melody features: for
single-component vectors the Euclidean norm is the absolute difference. -/
def euclid1 (x y : List ℚ) : ℚ := |x.getD 0 0 - y.getD 0 0|

/-- Result record of `SimilarityComparator.compare_melody_contours`
(similarity_comparator.py:71-120), matrices omitted. -/
structure MelodyResult where
  melody_similarity : ℚ
  melody_dtw_distance : ℚ

/-- Embedding of `SimilarityComparator.compare_melody_contours`
(similarity_comparator.py:71-120): convert both contours to MIDI, normalize to
relative pitch by the median of the voiced frames, run DTW with the Euclidean
metric on the `reshape(1, -1)` feature matrices, and convert the distance to
`1/(1 + distance)`. -/
def compare_melody_contours (hzToMidi : ℚ → ℚ) (f0_1 f0_2 : List ℚ)
    (voiced_1 voiced_2 : List Bool) : MelodyResult :=
  let midi_1 := convert_f0_to_midi hzToMidi f0_1
  let midi_2 := convert_f0_to_midi hzToMidi f0_2
  let midi_1_norm := normalize_melody midi_1 voiced_1
  let midi_2_norm := normalize_melody midi_2 voiced_2
  let r := compute_dtw_alignment euclid1 [midi_1_norm] [midi_2_norm]
  { melody_similarity := 1 / (1 + r.1), melody_dtw_distance := r.1 }

/-- Result record of `SimilarityComparator.compare_chroma_with_transposition`
(similarity_comparator.py:39-69), matrices omitted. -/
structure ChromaResult where
  best_transposition_semitones : Nat
  similarity_score : ℚ
  dtw_distance : ℚ

/-- Embedding of `SimilarityComparator.compare_chroma_with_transposition`
(similarity_comparator.py:39-69): run the transposition search, align chroma2
by the best shift, and run DTW once more on the aligned pair. -/
def compare_chroma_with_transposition (metric : List ℚ → List ℚ → ℚ)
    (chroma1 chroma2 : List (List ℚ)) : ChromaResult :=
  let best := find_best_transposition metric chroma1 chroma2
  let chroma2_aligned := transpose_chroma chroma2 best.1
  let r := compute_dtw_alignment metric chroma1 chroma2_aligned
  { best_transposition_semitones := best.1
    similarity_score := best.2
    dtw_distance := r.1 }

/-- Computation core of `SimilarityComparator.compare_tracks`
(similarity_comparator.py:237-333) on already-extracted per-track features:
chroma comparison with transposition search, melody-contour comparison, tempo
ratio, and the overall score assembled from the three. -/
structure CompareOutcome where
  chroma_result : ChromaResult
  melody_result : MelodyResult
  tempo_ratio_value : ℚ
  overall : OverallResult

/-- The comparison stages of `compare_tracks` applied to the two tracks'
features (chroma matrices, smoothed f0 contours, voiced flags, tempi). -/
def compare_features (metric : List ℚ → List ℚ → ℚ) (hzToMidi : ℚ → ℚ)
    (chroma1 chroma2 : List (List ℚ)) (f0_1 f0_2 : List ℚ)
    (voiced_1 voiced_2 : List Bool) (tempo1 tempo2 : ℚ) : CompareOutcome :=
  let cr := compare_chroma_with_transposition metric chroma1 chroma2
  let mr := compare_melody_contours hzToMidi f0_1 f0_2 voiced_1 voiced_2
  let tr := tempo_ratio tempo1 tempo2
  { chroma_result := cr
    melody_result := mr
    tempo_ratio_value := tr
    overall := compute_overall_similarity cr.similarity_score mr.melody_similarity tr }

theorem find_best_transposition_self (metric : List ℚ → List ℚ → ℚ)
    (c : List (List ℚ)) (hrefl : ∀ x, metric x x = 0)
    (hpos : ∀ x y, 0 ≤ metric x y) :
    find_best_transposition metric c c = (0, 1) := by
  obtain ⟨b, hfold, hb, hmax, hstrict⟩ :=
    foldl_bestStep_spec (shift_similarity metric c c) 12 (by norm_num)
  have hf0 : shift_similarity metric c c 0 = 1 := by
    unfold shift_similarity
    rw [transpose_chroma_zero, compute_dtw_alignment_self metric c hrefl hpos]
    norm_num
  have hfb : shift_similarity metric c c b = 1 :=
    le_antisymm (shift_similarity_le_one metric hpos c c b)
      (hf0 ▸ hmax 0 (by norm_num))
  have hb0 : b = 0 := by
    by_contra hne
    have hlt := hstrict 0 (Nat.pos_of_ne_zero hne)
    rw [hf0, hfb] at hlt
    exact lt_irrefl 1 hlt
  subst hb0
  simp [find_best_transposition, hfold, hfb]

theorem compare_melody_contours_self (hzToMidi : ℚ → ℚ) (f0 : List ℚ)
    (voiced : List Bool) :
    (compare_melody_contours hzToMidi f0 f0 voiced voiced).melody_similarity = 1 ∧
    (compare_melody_contours hzToMidi f0 f0 voiced voiced).melody_dtw_distance = 0 := by
  have hself : (compute_dtw_alignment euclid1
      [normalize_melody (convert_f0_to_midi hzToMidi f0) voiced]
      [normalize_melody (convert_f0_to_midi hzToMidi f0) voiced]).1 = 0 :=
    compute_dtw_alignment_self euclid1 _
      (fun x => by simp [euclid1]) (fun x y => abs_nonneg _)
  constructor
  · simp only [compare_melody_contours, hself]
    norm_num
  · simp only [compare_melody_contours, hself]

theorem tempo_ratio_self (t : ℚ) : tempo_ratio t t = 1 := by
  unfold tempo_ratio
  split_ifs with h
  · exact div_self (ne_of_gt h)
  · rfl

/-- C5: comparing a track's features against an identical copy of themselves
yields best transposition 0, chroma and melody similarity exactly 1 (the
rational embedding realizes the approximate 1.0 of floating point exactly),
tempo ratio 1, and an overall similarity percentage of 100, hence at least 95.
The metric hypotheses say that the frame metric is reflexively zero and
nonnegative, which holds for the cosine distance scipy computes on the
(nonnegative, nonzero) chroma frames. -/
theorem compare_tracks_identity (metric : List ℚ → List ℚ → ℚ)
    (hzToMidi : ℚ → ℚ) (chroma : List (List ℚ)) (f0 : List ℚ)
    (voiced : List Bool) (tempo : ℚ)
    (hrefl : ∀ x, metric x x = 0) (hpos : ∀ x y, 0 ≤ metric x y)
    (hT : 1 ≤ nFrames chroma) (hf : 1 ≤ f0.length) :
    (compare_features metric hzToMidi chroma chroma f0 f0 voiced voiced
      tempo tempo).chroma_result.best_transposition_semitones = 0 ∧
    (compare_features metric hzToMidi chroma chroma f0 f0 voiced voiced
      tempo tempo).chroma_result.similarity_score = 1 ∧
    (compare_features metric hzToMidi chroma chroma f0 f0 voiced voiced
      tempo tempo).melody_result.melody_similarity = 1 ∧
    (compare_features metric hzToMidi chroma chroma f0 f0 voiced voiced
      tempo tempo).tempo_ratio_value = 1 ∧
    (compare_features metric hzToMidi chroma chroma f0 f0 voiced voiced
      tempo tempo).overall.similarity_percentage = 100 ∧
    95 ≤ (compare_features metric hzToMidi chroma chroma f0 f0 voiced voiced
      tempo tempo).overall.similarity_percentage := by
  have hc := find_best_transposition_self metric chroma hrefl hpos
  have hm := (compare_melody_contours_self hzToMidi f0 voiced).1
  have ht := tempo_ratio_self tempo
  have hover : (compare_features metric hzToMidi chroma chroma f0 f0 voiced
      voiced tempo tempo).overall.similarity_percentage = 100 := by
    simp only [compare_features, compare_chroma_with_transposition, hc, hm, ht]
    norm_num [compute_overall_similarity, CHROMA_WEIGHT, MELODY_WEIGHT,
      TEMPO_WEIGHT]
  refine ⟨?_, ?_, ?_, ?_, hover, by rw [hover]; norm_num⟩
  · simp [compare_features, compare_chroma_with_transposition, hc]
  · simp [compare_features, compare_chroma_with_transposition, hc]
  · simp [compare_features, hm]
  · simp [compare_features, ht]

/-- Witness for C5 at concrete features: the discrete frame metric, identity
Hz-to-MIDI conversion, a one-frame chroma matrix, a one-frame melody, and
tempo 120. -/
theorem compare_tracks_identity_witness :
    (compare_features (fun x y => if x = y then 0 else 1) (fun x => x)
      [[1]] [[1]] [60] [60] [true] [true]
      120 120).chroma_result.best_transposition_semitones = 0 ∧
    (compare_features (fun x y => if x = y then 0 else 1) (fun x => x)
      [[1]] [[1]] [60] [60] [true] [true]
      120 120).chroma_result.similarity_score = 1 ∧
    (compare_features (fun x y => if x = y then 0 else 1) (fun x => x)
      [[1]] [[1]] [60] [60] [true] [true]
      120 120).melody_result.melody_similarity = 1 ∧
    (compare_features (fun x y => if x = y then 0 else 1) (fun x => x)
      [[1]] [[1]] [60] [60] [true] [true]
      120 120).tempo_ratio_value = 1 ∧
    (compare_features (fun x y => if x = y then 0 else 1) (fun x => x)
      [[1]] [[1]] [60] [60] [true] [true]
      120 120).overall.similarity_percentage = 100 ∧
    95 ≤ (compare_features (fun x y => if x = y then 0 else 1) (fun x => x)
      [[1]] [[1]] [60] [60] [true] [true]
      120 120).overall.similarity_percentage :=
  compare_tracks_identity (fun x y => if x = y then 0 else 1) (fun x => x)
    [[1]] [60] [true] 120
    (fun x => by simp)
    (fun x y => by dsimp only; split_ifs <;> norm_num)
    (by decide) (by decide)

/-! ### Local alignment regions and segment filtering -/

/-- The list `[0, step, 2*step, ...)` of values below `stop` produced by
Python `range(0, stop, step)` for a positive step. -/
def strideList (stop step : Nat) : List Nat :=
  (List.range ((stop + step - 1) / step)).map (fun k => k * step)

/-- Python `range(0, stop, step)` over naturals.  A zero `step` makes Python
raise `ValueError: range() arg 3 must not be zero` (even for an empty bound),
modelled as `none`.  The truncating natural subtraction feeding `stop` agrees
with Python's negative stop, which also yields an empty range. -/
def pyRange (stop step : Nat) : Option (List Nat) :=
  if step = 0 then none else some (strideList stop step)

/-- One region dictionary appended by `compute_local_alignment`
(melody_analyzer.py:274-281). -/
structure Region where
  track1_start_frame : Nat
  track1_end_frame : Nat
  track2_start_frame : Nat
  track2_end_frame : Nat
  similarity_score : ℚ
  max_similarity : ℚ

/-- Cost to similarity conversion `similarity = 1.0 / (1.0 + C)`
(melody_analyzer.py:259). -/
def simOfCost (C : Nat → Nat → ℚ) : Nat → Nat → ℚ := fun i j => 1 / (1 + C i j)

/-- The entries of the `ws` x `ws` window of `similarity` anchored at `(i, j)`,
that is `similarity[i:i+ws, j:j+ws]` flattened. -/
def windowVals (sim : Nat → Nat → ℚ) (i j ws : Nat) : List ℚ :=
  ((List.range ws).map (fun a =>
    (List.range ws).map (fun b => sim (i + a) (j + b)))).flatten

/-- `np.mean` of the window: the sum of its `ws * ws` entries over their count. -/
def windowMean (sim : Nat → Nat → ℚ) (i j ws : Nat) : ℚ :=
  (windowVals sim i j ws).sum / (ws * ws)

/-- `np.max` of the window; folding from the corner entry `sim i j`, which
belongs to the window whenever `ws ≥ 1`, so the fold equals the true maximum. -/
def windowMax (sim : Nat → Nat → ℚ) (i j ws : Nat) : ℚ :=
  (windowVals sim i j ws).foldr max (sim i j)

/-- The region dictionary built for the window anchored at `(i, j)`
(melody_analyzer.py:274-281). -/
def mkRegion (sim : Nat → Nat → ℚ) (ws i j : Nat) : Region :=
  { track1_start_frame := i
    track1_end_frame := i + ws
    track2_start_frame := j
    track2_end_frame := j + ws
    similarity_score := windowMean sim i j ws
    max_similarity := windowMax sim i j ws }

/-- Comparison used to embed
`sorted(local_regions, key=lambda x: x["similarity_score"], reverse=True)`
(melody_analyzer.py:284): descending by score; `mergeSort` with this relation
is stable, like Python's `sorted`. -/
def regionLe (r1 r2 : Region) : Bool :=
  decide (r2.similarity_score ≤ r1.similarity_score)

/-- Embedding of `MelodyAnalyzer.compute_local_alignment`
(melody_analyzer.py:246-286): convert cost to similarity, slide a `ws` x `ws`
window with stride `ws // 2` over both axes (`range(0, n_frames - ws, stride)`
on each), retain a window when its mean similarity strictly exceeds 0.7, and
sort the retained regions by descending mean similarity.  The result is `none`
when `ws // 2 = 0` (window sizes 0 and 1), where the Python `range` call
raises `ValueError`. -/
def compute_local_alignment (C : Nat → Nat → ℚ) (n_frames1 n_frames2 ws : Nat) :
    Option (List Region) :=
  let sim := simOfCost C
  let stride := ws / 2
  match pyRange (n_frames1 - ws) stride, pyRange (n_frames2 - ws) stride with
  | some rows, some cols =>
      some ((rows.flatMap (fun i => cols.filterMap (fun j =>
        if windowMean sim i j ws > 0.7 then some (mkRegion sim ws i j)
        else none))).mergeSort regionLe)
  | _, _ => none

/-- Every window position visited by the two nested loops, as a region. -/
def allWindowRegions (C : Nat → Nat → ℚ) (n1 n2 ws : Nat) : List Region :=
  (strideList (n1 - ws) (ws / 2)).flatMap (fun i =>
    (strideList (n2 - ws) (ws / 2)).map (fun j => mkRegion (simOfCost C) ws i j))

/-- `librosa.frames_to_time(frame, sr, hop_length) = frame * hop_length / sr`. -/
def frames_to_time (frame : Nat) (sr hop : Nat) : ℚ :=
  ((frame : ℚ) * (hop : ℚ)) / (sr : ℚ)

/-- A region with the four time fields added in place by
`find_similar_segments` (similarity_comparator.py:143-164). -/
structure Segment where
  region : Region
  track1_start_time : ℚ
  track1_end_time : ℚ
  track2_start_time : ℚ
  track2_end_time : ℚ

/-- The time-annotation step of `find_similar_segments`
(similarity_comparator.py:143-164). -/
def addTimes (hop sr : Nat) (r : Region) : Segment :=
  { region := r
    track1_start_time := frames_to_time r.track1_start_frame sr hop
    track1_end_time := frames_to_time r.track1_end_frame sr hop
    track2_start_time := frames_to_time r.track2_start_frame sr hop
    track2_end_time := frames_to_time r.track2_end_frame sr hop }

/-- Embedding of `SimilarityComparator.find_similar_segments`
(similarity_comparator.py:122-169): run the detector, annotate every region
with its time ranges, then keep the regions with
`similarity_score >= threshold`. -/
def find_similar_segments (C : Nat → Nat → ℚ) (n1 n2 : Nat) (hop sr ws : Nat)
    (threshold : ℚ) : Option (List Segment) :=
  match compute_local_alignment C n1 n2 ws with
  | none => none
  | some local_regions =>
      let segs := local_regions.map (addTimes hop sr)
      some (segs.filter (fun s => decide (s.region.similarity_score ≥ threshold)))

theorem mkRegion_score (sim : Nat → Nat → ℚ) (ws i j : Nat) :
    (mkRegion sim ws i j).similarity_score = windowMean sim i j ws := rfl

theorem filterMap_window (sim : Nat → Nat → ℚ) (ws i : Nat) (cols : List Nat) :
    cols.filterMap (fun j =>
        if windowMean sim i j ws > 0.7 then some (mkRegion sim ws i j)
        else none) =
      (cols.map (fun j => mkRegion sim ws i j)).filter
        (fun r => decide (r.similarity_score > 0.7)) := by
  induction cols with
  | nil => rfl
  | cons a t ih =>
    by_cases h : windowMean sim i a ws > 0.7 <;>
      simp [List.filterMap_cons, List.filter_cons, mkRegion_score, h, ih]

theorem compute_local_alignment_eq (C : Nat → Nat → ℚ) (n1 n2 ws : Nat)
    (hws : ws / 2 ≠ 0) :
    compute_local_alignment C n1 n2 ws =
      some (((allWindowRegions C n1 n2 ws).filter
        (fun r => decide (r.similarity_score > 0.7))).mergeSort regionLe) := by
  unfold compute_local_alignment pyRange allWindowRegions
  simp only [if_neg hws]
  simp only [filterMap_window, ← List.filter_flatMap]

theorem compute_local_alignment_scores (C : Nat → Nat → ℚ) (n1 n2 ws : Nat)
    (l : List Region) (h : compute_local_alignment C n1 n2 ws = some l) :
    ∀ r ∈ l, r.similarity_score > 0.7 := by
  intro r hr
  by_cases hws : ws / 2 = 0
  · unfold compute_local_alignment pyRange at h
    simp [hws] at h
  · rw [compute_local_alignment_eq C n1 n2 ws hws] at h
    injection h with h
    subst h
    have hmem := (List.mergeSort_perm _ _).mem_iff.mp hr
    exact of_decide_eq_true (List.mem_filter.mp hmem).2

/-- C6 counterexample: at window size 1 (hence stride `1 // 2 = 0`) the Python
`range(0, stop, 0)` call raises `ValueError`, so on a concrete 60 x 60 cost
matrix `compute_local_alignment` does not return any region list (modelled as
`none`) — the claim fails for this window size. -/
theorem compute_local_alignment_counterexample :
    compute_local_alignment (fun _ _ => (0 : ℚ)) 60 60 1 = none := rfl

/-- C6 (amended): for every cost matrix and window size at least 2 (stride
`ws // 2 ≥ 1`), `compute_local_alignment` converts each cost entry to
similarity `1/(1+cost)`, visits the square windows anchored on the stride
`ws // 2` grid over both axes, retains a window exactly when its mean
similarity strictly exceeds 0.7, and returns the retained regions sorted in
descending order of mean similarity score. -/
theorem compute_local_alignment_spec (C : Nat → Nat → ℚ) (n1 n2 ws : Nat)
    (hws : 2 ≤ ws) :
    ∃ l : List Region,
      compute_local_alignment C n1 n2 ws = some l ∧
      l.Perm ((allWindowRegions C n1 n2 ws).filter
        (fun r => decide (r.similarity_score > 0.7))) ∧
      List.Sorted (fun a b => b.similarity_score ≤ a.similarity_score) l ∧
      ∀ r ∈ l, r.similarity_score > 0.7 := by
  have hws2 : ws / 2 ≠ 0 := by omega
  refine ⟨_, compute_local_alignment_eq C n1 n2 ws hws2,
    List.mergeSort_perm _ _, ?_, ?_⟩
  · have htrans : ∀ a b c : Region, regionLe a b = true → regionLe b c = true →
        regionLe a c = true := by
      intro a b c hab hbc
      simp only [regionLe, decide_eq_true_eq] at hab hbc ⊢
      exact le_trans hbc hab
    have htotal : ∀ a b : Region, (regionLe a b || regionLe b a) = true := by
      intro a b
      simp only [regionLe, Bool.or_eq_true, decide_eq_true_eq]
      exact le_total _ _
    have hp := List.sorted_mergeSort htrans htotal
      ((allWindowRegions C n1 n2 ws).filter
        (fun r => decide (r.similarity_score > 0.7)))
    exact hp.imp (fun h => by simpa [regionLe, decide_eq_true_eq] using h)
  · exact compute_local_alignment_scores C n1 n2 ws _
      (compute_local_alignment_eq C n1 n2 ws hws2)

/-- Witness for the amended C6 at a concrete all-zero 100 x 100 cost matrix
with the default window size 50. -/
theorem compute_local_alignment_spec_witness :
    ∃ l : List Region,
      compute_local_alignment (fun _ _ => (0 : ℚ)) 100 100 50 = some l ∧
      l.Perm ((allWindowRegions (fun _ _ => (0 : ℚ)) 100 100 50).filter
        (fun r => decide (r.similarity_score > 0.7))) ∧
      List.Sorted (fun a b => b.similarity_score ≤ a.similarity_score) l ∧
      ∀ r ∈ l, r.similarity_score > 0.7 :=
  compute_local_alignment_spec (fun _ _ => (0 : ℚ)) 100 100 50 (by norm_num)

/-- C7: every region produced by `compute_local_alignment` already scores
strictly above 0.7, so the caller-side filter of `find_similar_segments`
removes nothing for any threshold at or below 0.7 (in particular the 0.65 used
by `compare_tracks`): the returned segment list is exactly the detector's
output annotated with time ranges, order included. -/
theorem find_similar_segments_threshold_no_op (C : Nat → Nat → ℚ)
    (n1 n2 hop sr ws : Nat) (threshold : ℚ) (hth : threshold ≤ 0.7) :
    (∀ l, compute_local_alignment C n1 n2 ws = some l →
      ∀ r ∈ l, r.similarity_score > 0.7) ∧
    find_similar_segments C n1 n2 hop sr ws threshold =
      (compute_local_alignment C n1 n2 ws).map
        (fun l => l.map (addTimes hop sr)) := by
  refine ⟨fun l h => compute_local_alignment_scores C n1 n2 ws l h, ?_⟩
  unfold find_similar_segments
  rcases h : compute_local_alignment C n1 n2 ws with _ | l
  · rfl
  · simp only [Option.map_some]
    congr 1
    apply List.filter_eq_self.mpr
    intro s hs
    obtain ⟨r, hr, rfl⟩ := List.mem_map.mp hs
    have h7 := compute_local_alignment_scores C n1 n2 ws l h r hr
    simp only [addTimes, decide_eq_true_eq]
    exact le_trans hth (le_of_lt h7)

/-- Witness for C7 at the parameters `compare_tracks` passes: window 50 and
threshold 0.65, with hop length 512 and sample rate 22050, on a concrete
all-zero 100 x 100 cost matrix. -/
theorem find_similar_segments_threshold_no_op_witness :
    (∀ l, compute_local_alignment (fun _ _ => (0 : ℚ)) 100 100 50 = some l →
      ∀ r ∈ l, r.similarity_score > 0.7) ∧
    find_similar_segments (fun _ _ => (0 : ℚ)) 100 100 512 22050 50 0.65 =
      (compute_local_alignment (fun _ _ => (0 : ℚ)) 100 100 50).map
        (fun l => l.map (addTimes 512 22050)) :=
  find_similar_segments_threshold_no_op (fun _ _ => (0 : ℚ)) 100 100 512 22050
    50 0.65 (by norm_num)

/-! ### Comparison job state machine (app.py) -/

/-- Observable state of one comparison job around `_process_comparison_async`
(app.py:402-585): the Analysis row's status and captured error, the
process-wide `progress_store` entry's status, and whether the similarity
report was saved as an artifact. -/
structure JobState where
  analysis_status : String
  analysis_error : Option String
  progress_status : String
  report_published : Bool

/-- State established by the request handler `compare_tracks`
(app.py:357-393) before the background thread starts: the Analysis row is
created with status "processing" and the progress entry is initialized to
status "processing". -/
def initialJobState : JobState :=
  { analysis_status := "processing"
    analysis_error := none
    progress_status := "processing"
    report_published := false }

/-- Outcome oracle for the fallible steps of the background task.  Each
`Option String` is `none` when the step succeeds and `some msg` when it raises
an exception with message `msg`; the `visualize_and_save` step covers
visualization generation and artifact assembly up to the final commit. -/
structure StageOutcomes where
  analysis_found : Bool
  temp_write : Option String
  path1_exists : Bool
  path2_exists : Bool
  compare : Option String
  visualize_and_save : Option String

/-- The state written by the `except` branch of `_process_comparison_async`
(app.py:559-576): the Analysis row is marked failed with the captured message
and the progress entry is marked failed. -/
def failState (msg : String) : JobState :=
  { analysis_status := "failed"
    analysis_error := some ("Error during comparison: " ++ msg)
    progress_status := "failed"
    report_published := false }

/-- Embedding of the control flow of `_process_comparison_async`
(app.py:402-585), driven by the stage outcomes: if the Analysis row is not
found the function returns at once, touching nothing (app.py:415-418); a
missing temporary file marks the job failed and returns (app.py:439-459); an
exception in any later stage is caught by the `except` branch, which marks the
job failed with the captured message; on full success the report artifact is
saved and the job is marked completed (app.py:528-555). -/
def process_comparison (o : StageOutcomes) (s : JobState) : JobState :=
  if !o.analysis_found then s
  else
    match o.temp_write with
    | some e => failState e
    | none =>
      if !o.path1_exists then
        { analysis_status := "failed"
          analysis_error := some "Failed to create temporary file for Track 1"
          progress_status := "failed"
          report_published := false }
      else if !o.path2_exists then
        { analysis_status := "failed"
          analysis_error := some "Track 2 audio file not found on server"
          progress_status := "failed"
          report_published := false }
      else
        match o.compare with
        | some e => failState e
        | none =>
          match o.visualize_and_save with
          | some e => failState e
          | none =>
            { analysis_status := "completed"
              analysis_error := none
              progress_status := "completed"
              report_published := true }

/-- C10 counterexample: on the execution path where the Analysis row is not
found (app.py:415-418), `_process_comparison_async` returns without writing
any status, so the job stays in the "processing" state the request handler put
it in — a non-terminal state, contradicting the claim that every execution
path ends with a terminal status. -/
theorem process_comparison_counterexample :
    (process_comparison
      { analysis_found := false, temp_write := none, path1_exists := true,
        path2_exists := true, compare := none, visualize_and_save := none }
      initialJobState).analysis_status = "processing" ∧
    ¬ ((process_comparison
      { analysis_found := false, temp_write := none, path1_exists := true,
        path2_exists := true, compare := none, visualize_and_save := none }
      initialJobState).analysis_status = "completed" ∨
    (process_comparison
      { analysis_found := false, temp_write := none, path1_exists := true,
        path2_exists := true, compare := none, visualize_and_save := none }
      initialJobState).analysis_status = "failed") := by
  refine ⟨rfl, ?_⟩
  decide

/-- C10 (amended): provided the job's Analysis record is found when the
background task starts, every execution path ends with the job in a terminal
status — "completed" on the fully successful path, "failed" on any stage
failure with a captured error message — the job is never left in
"processing", the progress entry agrees with the Analysis status, and the
similarity report is published exactly on the completed path (never for a
failed comparison). -/
theorem process_comparison_spec (o : StageOutcomes)
    (h : o.analysis_found = true) :
    ((process_comparison o initialJobState).analysis_status = "completed" ∨
      (process_comparison o initialJobState).analysis_status = "failed") ∧
    (process_comparison o initialJobState).progress_status =
      (process_comparison o initialJobState).analysis_status ∧
    ((process_comparison o initialJobState).analysis_status = "failed" →
      (process_comparison o initialJobState).analysis_error ≠ none ∧
      (process_comparison o initialJobState).report_published = false) ∧
    ((process_comparison o initialJobState).report_published = true ↔
      (process_comparison o initialJobState).analysis_status = "completed") := by
  rcases o with ⟨found, tw, p1, p2, cmp, viz⟩
  simp only at h
  subst h
  rcases tw with _ | e1 <;> rcases p1 with _ | _ <;> rcases p2 with _ | _ <;>
    rcases cmp with _ | e2 <;> rcases viz with _ | e3 <;>
    simp [process_comparison, failState, initialJobState]

/-- Witness for the amended C10 at the all-success outcome. -/
theorem process_comparison_spec_witness :
    ((process_comparison
      { analysis_found := true, temp_write := none, path1_exists := true,
        path2_exists := true, compare := none, visualize_and_save := none }
      initialJobState).analysis_status = "completed" ∨
      (process_comparison
      { analysis_found := true, temp_write := none, path1_exists := true,
        path2_exists := true, compare := none, visualize_and_save := none }
      initialJobState).analysis_status = "failed") ∧
    (process_comparison
      { analysis_found := true, temp_write := none, path1_exists := true,
        path2_exists := true, compare := none, visualize_and_save := none }
      initialJobState).progress_status =
      (process_comparison
      { analysis_found := true, temp_write := none, path1_exists := true,
        path2_exists := true, compare := none, visualize_and_save := none }
      initialJobState).analysis_status ∧
    ((process_comparison
      { analysis_found := true, temp_write := none, path1_exists := true,
        path2_exists := true, compare := none, visualize_and_save := none }
      initialJobState).analysis_status = "failed" →
      (process_comparison
      { analysis_found := true, temp_write := none, path1_exists := true,
        path2_exists := true, compare := none, visualize_and_save := none }
      initialJobState).analysis_error ≠ none ∧
      (process_comparison
      { analysis_found := true, temp_write := none, path1_exists := true,
        path2_exists := true, compare := none, visualize_and_save := none }
      initialJobState).report_published = false) ∧
    ((process_comparison
      { analysis_found := true, temp_write := none, path1_exists := true,
        path2_exists := true, compare := none, visualize_and_save := none }
      initialJobState).report_published = true ↔
      (process_comparison
      { analysis_found := true, temp_write := none, path1_exists := true,
        path2_exists := true, compare := none, visualize_and_save := none }
      initialJobState).analysis_status = "completed") :=
  process_comparison_spec
    { analysis_found := true, temp_write := none, path1_exists := true,
      path2_exists := true, compare := none, visualize_and_save := none } rfl
